import Mathlib

/-!
Verification development for the travel-agency CRM portal automation core
(`epic_trips_crm.scraping.travelagentportal_playwright` and
`epic_trips_crm.scraping.run_submit_sale`).

The Python client drives a browser page.  We embed each method as a function
from an explicit page environment (the oracle answers the page would give to
the reads and waits the method performs) to a `Tr` value: the list of browser
interactions the method emits, paired with its result (`Except` models Python
exceptions).  `PErr.timeoutErr` stands for playwright `TimeoutError`
(`PWTimeoutError` in the source), `PErr.runtimeErr` for Python `RuntimeError`.
-/

/-- Errors a portal operation can raise: playwright timeout or RuntimeError. -/
inductive PErr where
  | timeoutErr (msg : String)
  | runtimeErr (msg : String)
deriving DecidableEq, Repr

/-- One observable browser interaction issued by the client.  `target` below
recovers the selector an interaction acts on; interactions without a selector
target (keyboard, role-based clicks, navigation, screenshots) carry none. -/
inductive PAct where
  | goto (url : String)
  | click (sel : String)
  | clickRole (role name : String)
  | fill (sel value : String)
  | typeText (sel value : String) (delayMs : Nat)
  | press (sel key : String)
  | keyPress (key : String)
  | waitFor (sel : String)
  | waitLoad (state : String)
  | waitFun (desc : String)
  | sleep (ms : Nat)
  | evalJs (sel desc : String)
  | selectOption (sel label : String)
  | scroll (sel : String)
  | screenshot (tag : String)
  | dialogOnce
deriving DecidableEq, Repr

/-- Selector an interaction is addressed to, when it has one. -/
def PAct.target : PAct → Option String
  | PAct.click s => some s
  | PAct.fill s _ => some s
  | PAct.typeText s _ _ => some s
  | PAct.press s _ => some s
  | PAct.waitFor s => some s
  | PAct.evalJs s _ => some s
  | PAct.selectOption s _ => some s
  | PAct.scroll s => some s
  | _ => none

/-- Is this interaction a keystroke-typing burst (locator.type in the source)? -/
def PAct.isTyping : PAct → Bool
  | PAct.typeText _ _ _ => true
  | _ => false

/-- Trace-and-result of running a piece of the client: the browser interactions
it emitted (also on the failing paths, up to the failure) and its outcome. -/
structure Tr (A : Type) (α : Type) where
  trace : List A
  result : Except PErr α

/-- Sequencing: on error the continuation does not run and the trace so far is
kept; on success the traces concatenate. -/
def Tr.bind (x : Tr A α) (f : α → Tr A β) : Tr A β :=
  match x.result with
  | Except.error e => ⟨x.trace, Except.error e⟩
  | Except.ok a => let y := f a; ⟨x.trace ++ y.trace, y.result⟩

instance : Monad (Tr A) where
  pure a := ⟨[], Except.ok a⟩
  bind := Tr.bind

/-- Emit one browser interaction and succeed. -/
def act (a : PAct) : Tr PAct Unit := ⟨[a], Except.ok ()⟩

/-- Raise an exception (no interaction emitted). -/
def Tr.fail (e : PErr) : Tr A α := ⟨[], Except.error e⟩

/-- Python `try ... except Exception:` — every error runs the handler. -/
def Tr.catchWith (x : Tr A α) (h : PErr → Tr A α) : Tr A α :=
  match x.result with
  | Except.ok _ => x
  | Except.error e => let y := h e; ⟨x.trace ++ y.trace, y.result⟩

/-- Python `try ... except PWTimeoutError:` — only timeouts run the handler. -/
def Tr.catchTimeout (x : Tr A α) (h : String → Tr A α) : Tr A α :=
  match x.result with
  | Except.error (PErr.timeoutErr m) => let y := h m; ⟨x.trace ++ y.trace, y.result⟩
  | _ => x

/-- Python `try: body finally: fin` — the cleanup always runs; an error of the
cleanup replaces the pending result. -/
def Tr.tryFinally (body : Tr A α) (fin : Tr A Unit) : Tr A α :=
  ⟨body.trace ++ fin.trace,
   match fin.result with
   | Except.error e => Except.error e
   | Except.ok _ => body.result⟩

theorem Tr.bind_eq (x : Tr A α) (f : α → Tr A β) : (x >>= f) = Tr.bind x f := rfl

theorem Tr.pure_eq (a : α) : (pure a : Tr A α) = ⟨[], Except.ok a⟩ := rfl

theorem Tr.mem_trace_bind {a : A} {x : Tr A α} {f : α → Tr A β}
    (h : a ∈ (Tr.bind x f).trace) :
    a ∈ x.trace ∨ ∃ v, x.result = Except.ok v ∧ a ∈ (f v).trace := by
  unfold Tr.bind at h
  cases hx : x.result with
  | error e => rw [hx] at h; exact Or.inl h
  | ok v =>
    rw [hx] at h
    simp only [List.mem_append] at h
    rcases h with h | h
    · exact Or.inl h
    · exact Or.inr ⟨v, rfl, h⟩

theorem Tr.mem_trace_catchWith {a : A} {x : Tr A α} {h : PErr → Tr A α}
    (hm : a ∈ (Tr.catchWith x h).trace) :
    a ∈ x.trace ∨ ∃ e, x.result = Except.error e ∧ a ∈ (h e).trace := by
  unfold Tr.catchWith at hm
  cases hx : x.result with
  | ok v => rw [hx] at hm; exact Or.inl hm
  | error e =>
    rw [hx] at hm
    simp only [List.mem_append] at hm
    rcases hm with hm | hm
    · exact Or.inl hm
    · exact Or.inr ⟨e, rfl, hm⟩

theorem Tr.mem_trace_catchTimeout {a : A} {x : Tr A α} {h : String → Tr A α}
    (hm : a ∈ (Tr.catchTimeout x h).trace) :
    a ∈ x.trace ∨ ∃ m, x.result = Except.error (PErr.timeoutErr m) ∧ a ∈ (h m).trace := by
  unfold Tr.catchTimeout at hm
  cases hx : x.result with
  | ok v => rw [hx] at hm; exact Or.inl hm
  | error e =>
    cases e with
    | timeoutErr m =>
      rw [hx] at hm
      simp only [List.mem_append] at hm
      rcases hm with hm | hm
      · exact Or.inl hm
      · exact Or.inr ⟨m, rfl, hm⟩
    | runtimeErr m => rw [hx] at hm; exact Or.inl hm

theorem Tr.result_ok_bind {x : Tr A α} {f : α → Tr A β} {r : β}
    (h : (Tr.bind x f).result = Except.ok r) :
    ∃ v, x.result = Except.ok v ∧ (f v).result = Except.ok r := by
  unfold Tr.bind at h
  cases hx : x.result with
  | error e => rw [hx] at h; exact absurd h (by simp)
  | ok v => rw [hx] at h; exact ⟨v, rfl, h⟩

theorem Tr.result_ok_catchTimeout {x : Tr A α} {h : String → Tr A α} {r : α}
    (hnever : ∀ m r0, (h m).result ≠ Except.ok r0)
    (hm : (Tr.catchTimeout x h).result = Except.ok r) :
    x.result = Except.ok r := by
  unfold Tr.catchTimeout at hm
  cases hx : x.result with
  | ok v =>
    rw [hx] at hm
    exact hx.symm.trans hm
  | error e =>
    cases e with
    | timeoutErr m => rw [hx] at hm; exact absurd hm (hnever m r)
    | runtimeErr m =>
      rw [hx] at hm
      exact absurd (hx.symm.trans hm) (by simp)

theorem Tr.result_ok_catchWith {x : Tr A α} {h : PErr → Tr A α} {r : α}
    (hnever : ∀ e r0, (h e).result ≠ Except.ok r0)
    (hm : (Tr.catchWith x h).result = Except.ok r) :
    x.result = Except.ok r := by
  unfold Tr.catchWith at hm
  cases hx : x.result with
  | ok v => rw [hx] at hm; exact hx.symm.trans hm
  | error e => rw [hx] at hm; exact absurd hm (hnever e r)

/-- Lower-case a string character by character (JS `toLowerCase` on the ASCII
attribute values the client reads). -/
def lowerStr (s : String) : String := String.mk (s.data.map Char.toLower)

/-- Upper-case a string character by character (JS `toUpperCase`). -/
def upperStr (s : String) : String := String.mk (s.data.map Char.toUpper)

/-- Contiguous-sublist test, used for the Python `"DD/MM" in hint` check. -/
def subList (pat : List Char) : List Char → Bool
  | [] => pat.isEmpty
  | c :: t => pat.isPrefixOf (c :: t) || subList pat t

/-- Python substring containment `pat in s`. -/
def strHasSub (s pat : String) : Bool := subList pat.data s.data

/-- Whitespace as trimmed by JS `trim` / Python `strip` on the values involved. -/
def isSpaceChar (c : Char) : Bool := c == ' ' || c == '\t' || c == '\n' || c == '\r'

/-- Trim leading and trailing whitespace. -/
def trimStr (s : String) : String :=
  String.mk (((s.data.dropWhile isSpaceChar).reverse.dropWhile isSpaceChar).reverse)

/-- Render a natural zero-padded to two digits (Python `f"{n:02d}"`). -/
def pad2 (n : Nat) : String := if n < 10 then "0" ++ toString n else toString n

/-- Render a natural zero-padded to four digits (Python `f"{n:04d}"`). -/
def pad4 (n : Nat) : String :=
  if n < 10 then "000" ++ toString n
  else if n < 100 then "00" ++ toString n
  else if n < 1000 then "0" ++ toString n
  else toString n

/-!
Selector registry, embedding the frozen dataclass `PortalSelectors`
(`travelagentportal_playwright.py`, lines 43-122).  Field values are the
source literals; `\x27` renders the single-quote character.
-/

/-- Centralized selectors for the portal (dataclass `PortalSelectors`). -/
structure PortalSelectors where
  login_open : String := "button[aria-label=\x27Login to your travel site\x27]"
  login_modal_visible : String := "#loginModal.show"
  username : String := "#email-login-modal"
  password : String := "#password-login-modal"
  login_submit : String := "#login-submit-modal"
  commissions_dropdown : String := "button[aria-label=\x27Commissions Dropdown\x27]"
  new_commission : String := "css=div.dt-buttons > button.btn.btn-primary"
  new_traveler_btn : String := "css=button[title=\x27Create a new traveler (Shortcut: n)\x27]"
  trav_first : String := "#firstNameInput"
  trav_last : String := "#TravelerForm_LastName"
  trav_email : String := "#travelerEmailInput"
  trav_phone : String := "#travelerPhoneInput"
  trav_save : String := "#saveButton"
  component_dropdown : String := "button#dropdownMenuButton"
  component_activity : String := "css=a.dropdown-item[href*=\x27/components/activity\x27]"
  component_car : String := "css=a.dropdown-item[href*=\x27/components/car\x27]"
  component_cruise : String := "css=a.dropdown-item[href*=\x27/components/cruise\x27]"
  component_hotel : String := "css=a.dropdown-item[href*=\x27/components/hotel\x27]"
  component_insurance : String := "css=a.dropdown-item[href*=\x27/components/insurance\x27]"
  component_package : String := "css=a.dropdown-item[href*=\x27/components/package\x27]"
  supplier_name : String := "#SupplierName"
  supplier_id : String := "#SupplierId"
  supplier_menu_item_wrapper : String := "css=ul.ui-autocomplete li.ui-menu-item div.ui-menu-item-wrapper"
  booking_date : String := "#BookingDate"
  start_date : String := "#StartDate"
  end_date : String := "#EndDate"
  currency_id : String := "#CurrencyId"
  estimated_commission : String := "#TravelComponentInput_EstimatedCommission"
  total_sales_amount : String := "#TotalSalesAmount"
  supplier_reference : String := "#SupplierReferenceId"
  activity_name : String := "#ActivityName"
  car_rental_company : String := "#CarRentalCompany"
  cruise_company : String := "#CruiseCompany"
  vessel_name : String := "#VesselName"
  hotel_name : String := "#HotelName"
  package_activity_choice : String := "#choice_790540000"
  package_hotel_choice : String := "#choice_790540005"
  component_save : String := "css=form#mainForm button.btn.btn-primary[type=\x27submit\x27]"
  final_submit : String := "#btnSubmit"

/-- The selector instance the client constructs (`self.sel = PortalSelectors()`). -/
def psel : PortalSelectors := {}

/-- Field `hub_table_row_by_id` of `PortalSelectors` is a template whose
placeholder is substituted with the form id in `_open_existing_form`
(`.format(form_id=form_id)`); we embed the substituted selector directly. -/
def hubTableRowById (formId : String) : String :=
  "xpath=" ++ ("//table[@id=\x27agentInvoiceTable\x27]//tr[td[normalize-space()=\x27" ++ formId ++ "\x27]]")

/-- Dynamic xpath built in `_add_supplier.click_best_match` for the exact
suggestion text (f-string with `supplier_text` substituted). -/
def supplierExactXPath (supplierText : String) : String :=
  "xpath=" ++ ("//ul[contains(@class,\x27ui-autocomplete\x27)]//div[contains(@class,\x27ui-menu-item-wrapper\x27)][normalize-space()=\x22" ++ supplierText ++ "\x22]")

/-!
Data model of the payloads the client consumes (data dictionaries in Python;
we model the keys each method reads as structure fields).
-/

/-- Calendar date as produced by `date.fromisoformat` (`_parse_iso_date`); the
payload carries ISO `YYYY-MM-DD` strings and the client parses them before
filling, so we model the parsed calendar value directly. -/
structure PyDate where
  year : Nat
  month : Nat
  day : Nat
deriving DecidableEq, Repr

/-- Python `date.isoformat()`: zero-padded `YYYY-MM-DD`. -/
def PyDate.isoformat (d : PyDate) : String :=
  pad4 d.year ++ "-" ++ pad2 d.month ++ "-" ++ pad2 d.day

/-- Traveler dict consumed by `_new_traveler`. -/
structure Traveler where
  first_name : String
  last_name : String
  email : String
  phone : String
deriving DecidableEq, Repr

/-- Component dict consumed by `_new_component` and the per-type builders.
The Python dict access `c["key"]` is total here: every key any builder reads
is a field (claims in scope never exercise missing-key errors). Numeric
amounts are filled with `str(...)` in the source, so we carry them as the
strings that end up in the fill. -/
structure Component where
  type : String
  booking_date : PyDate
  supplier : String
  start_date : PyDate
  end_date : PyDate
  commission_amount : String
  total_sales_amount : String
  booking_reference : String
  itinerary_details : String
  car_rental_company : String
  cruise_company : String
  ship_name : String
  hotel_name : String
deriving DecidableEq, Repr

/-- Payload of `submit_sale`.  `existing_form_id` is `none` when the key is
absent or maps to Python `None` (both read back as `None` via `.get`), and
`some s` when it maps to string `s`. -/
structure Payload where
  existing_form_id : Option String
  client_data : Option Traveler
  components : List Component

/-- Result record `SubmissionResult` (`services/portal_client.py`). -/
structure SubmissionResult where
  confirmation_id : String
deriving DecidableEq, Repr

/-- Constructor configuration of `PlaywrightPortalClient.__init__`: the fields
observable in the embedded behavior, with the source default for the form id. -/
structure ClientConfig where
  base_url : String
  default_form_id : String := "EVO2026153349"

/-!
Page environments: the oracle answers the external portal page gives to the
reads, waits and clicks the client performs.  One structure per helper that
branches on page state.
-/

/-- Page answers read by `_fill_date` and `_detect_date_format` for one date
control: its `type` attribute and its placeholder / aria-label texts (raw
attribute values; the source upper- or lower-cases them in JS). -/
structure DateEnv where
  typeAttr : String
  placeholder : String
  ariaLabel : String
deriving DecidableEq, Repr

/-- Page answers for one `_add_supplier` call: whether the autocomplete menu
renders on each attempt, whether an exact-text suggestion exists on each
attempt, and the value the hidden `#SupplierId` field holds during each
verification window. -/
structure SupplierEnv where
  menuAppears1 : Bool
  exactMatch1 : Bool
  menuAppears2 : Bool
  exactMatch2 : Bool
  idValue1 : String
  idValue2 : String
deriving DecidableEq, Repr

/-- Page answers for `_set_currency_usd`: the tag name of the currency control,
whether the exact `select_option` succeeds, and the control value after the
attempts settle. -/
structure CurrencyEnv where
  tagName : String
  selectExactOk : Bool
  valueAfter : String
deriving DecidableEq, Repr

/-- Page answers for one `_save_component_and_verify` call: whether the
validation locators evaluate without throwing, whether a validation error is
visible, whether the normal save click lands (else the JS fallback runs), and
which of the three bounded success signals occurs within its bound. -/
structure SaveEnv where
  validationEvalOk : Bool
  validationShown : Bool
  saveClickOk : Bool
  urlChanged : Bool
  saveBtnGone : Bool
  refVisible : Bool
deriving DecidableEq, Repr

/-- Page answers for `_final_submit_commission_form` verification: success
banner present, hub table present after reload, and the row for the form id
appearing within its bound. -/
structure FinalEnv where
  successBanner : Bool
  hubTableSeen : Bool
  rowAppears : Bool
deriving DecidableEq, Repr

/-- Full page environment for a client call.  Per-control and per-call oracles
are keyed by the selector, supplier text or booking reference involved. -/
structure PageEnv where
  pageStarted : Bool
  alreadyOnHub : Bool
  dateEnv : String → DateEnv
  supplierEnv : String → SupplierEnv
  currencyEnv : CurrencyEnv
  saveEnv : String → SaveEnv
  finalEnv : FinalEnv

/-!
Embeddings of the `PlaywrightPortalClient` methods.  Each definition mirrors
one Python method; the browser interactions it performs are emitted into the
trace, and page reads branch on the environment.
-/

/-- Method `_start` (lines 168-201): lazily opens the session and navigates to
the base url; a no-op when the page already exists. Launch failures are not
modelled (the claims in scope never exercise them). -/
def startRun (cfg : ClientConfig) (pe : PageEnv) : Tr PAct Unit :=
  if pe.pageStarted then pure () else act (PAct.goto cfg.base_url)

/-- Method `_debug_dump` (lines 465-483): best-effort full-page screenshot. -/
def debugDump (tag : String) : Tr PAct Unit :=
  act (PAct.screenshot tag)

/-- Method `_go_to_commissions_hub` (lines 516-537): returns immediately when
the hub landmark is present, else opens the dropdown, follows the exact
"Commissions Hub" link and waits for the hub landmark. -/
def goToCommissionsHub (pe : PageEnv) : Tr PAct Unit :=
  if pe.alreadyOnHub then pure ()
  else do
    act (PAct.click psel.commissions_dropdown)
    act (PAct.clickRole "link" "Commissions Hub")
    act (PAct.waitFor psel.new_commission)

/-- Method `_open_existing_form` (lines 539-554): waits for, scrolls to and
clicks the hub-table row of the given form id. -/
def openExistingForm (formId : String) : Tr PAct Unit := do
  act (PAct.waitFor (hubTableRowById formId))
  act (PAct.scroll (hubTableRowById formId))
  act (PAct.click (hubTableRowById formId))

/-- Method `_new_traveler` (lines 556-572): button, four fills, save. -/
def newTraveler (t : Traveler) : Tr PAct Unit := do
  act (PAct.click psel.new_traveler_btn)
  act (PAct.fill psel.trav_first t.first_name)
  act (PAct.fill psel.trav_last t.last_name)
  act (PAct.fill psel.trav_email t.email)
  act (PAct.fill psel.trav_phone t.phone)
  act (PAct.click psel.trav_save)

/-- Helper `_detect_date_format` (lines 402-425): reads placeholder and
aria-label (upper-cased in JS), returns "DMY" when the hint contains "DD/MM",
else "MDY" when it contains "MM/DD", else the "MDY" default. -/
def detectDateFormat (de : DateEnv) (sel : String) : Tr PAct String := do
  act (PAct.evalJs sel "getAttribute placeholder toUpperCase")
  act (PAct.evalJs sel "getAttribute aria-label toUpperCase")
  let hint := upperStr de.placeholder ++ " " ++ upperStr de.ariaLabel
  if strHasSub hint "DD/MM" then pure "DMY"
  else if strHasSub hint "MM/DD" then pure "MDY"
  else pure "MDY"

/-- Helper `_format_date` (lines 427-431). -/
def formatDate (d : PyDate) (fmt : String) : String :=
  if fmt = "DMY" then pad2 d.day ++ "/" ++ pad2 d.month ++ "/" ++ pad4 d.year
  else pad2 d.month ++ "/" ++ pad2 d.day ++ "/" ++ pad4 d.year

/-- Helper `_fill_date` (lines 433-458): native date inputs get ISO, text
inputs get the detected locale format. -/
def fillDate (de : DateEnv) (sel : String) (d : PyDate) : Tr PAct Unit := do
  act (PAct.evalJs sel "getAttribute type toLowerCase")
  if lowerStr de.typeAttr = "date" then
    act (PAct.fill sel d.isoformat)
  else do
    let fmt ← detectDateFormat de sel
    act (PAct.fill sel (formatDate d fmt))

/-- Predicate of the JS verification in `_add_supplier`: the hidden field value
is non-empty and not the all-zero GUID. -/
def supplierIdIsValid (v : String) : Bool :=
  trimStr v != "" && trimStr v != "00000000-0000-0000-0000-000000000000"

/-- Inner `open_and_type` of `_add_supplier`: wait, scroll, click, clear, type
the supplier text at the given per-key delay. -/
def supplierOpenAndType (supplierText : String) (delayMs : Nat) : Tr PAct Unit := do
  act (PAct.waitFor psel.supplier_name)
  act (PAct.scroll psel.supplier_name)
  act (PAct.click psel.supplier_name)
  act (PAct.fill psel.supplier_name "")
  act (PAct.typeText psel.supplier_name supplierText delayMs)

/-- Inner `wait_menu` of `_add_supplier`: raises a timeout when the suggestion
list never becomes visible. -/
def supplierWaitMenu (appears : Bool) : Tr PAct Unit :=
  if appears then act (PAct.waitFor "css=ul.ui-autocomplete")
  else Tr.fail (PErr.timeoutErr "autocomplete menu did not become visible")

/-- Inner `click_best_match` of `_add_supplier`: prefer the exact-text
suggestion, else the first suggestion. -/
def supplierClickBestMatch (supplierText : String) (exactExists : Bool) : Tr PAct Unit :=
  if exactExists then do
    act (PAct.scroll (supplierExactXPath supplierText))
    act (PAct.click (supplierExactXPath supplierText))
  else do
    act (PAct.waitFor psel.supplier_menu_item_wrapper)
    act (PAct.scroll psel.supplier_menu_item_wrapper)
    act (PAct.click psel.supplier_menu_item_wrapper)

/-- The `wait_for_function` verification of `#SupplierId`: succeeds within the
bound exactly when the value the field holds is valid, else times out. -/
def supplierWaitValid (v : String) : Tr PAct Unit :=
  if supplierIdIsValid v then act (PAct.waitFun "SupplierId non-empty and not the all-zero GUID")
  else Tr.fail (PErr.timeoutErr "SupplierId did not become valid")

/-- Method `_add_supplier` (lines 574-667): attempt 1 types fast, falls back to
keyboard selection if the menu interaction fails, and swallows a verification
timeout; attempt 2 re-opens the menu with slower typing and lets verification
failures propagate. -/
def addSupplier (se : SupplierEnv) (supplierText : String) : Tr PAct Unit := do
  supplierOpenAndType supplierText 15
  Tr.catchWith
    (do supplierWaitMenu se.menuAppears1
        supplierClickBestMatch supplierText se.exactMatch1)
    (fun _ => do
      act (PAct.press psel.supplier_name "ArrowDown")
      act (PAct.press psel.supplier_name "Enter"))
  act (PAct.evalJs psel.supplier_name "blur")
  Tr.catchWith (supplierWaitValid se.idValue1)
    (fun _ => do
      supplierOpenAndType supplierText 40
      supplierWaitMenu se.menuAppears2
      supplierClickBestMatch supplierText se.exactMatch2
      act (PAct.evalJs psel.supplier_name "blur")
      supplierWaitValid se.idValue2)

/-- Method `_set_currency_usd` (lines 694-746): select-tag controls get the
exact option (with a JS fallback), other controls get a fill-and-Enter; then
the value must be non-empty after a settle or a RuntimeError is raised. -/
def setCurrencyUsd (ce : CurrencyEnv) : Tr PAct Unit := do
  act (PAct.waitFor psel.currency_id)
  act (PAct.evalJs psel.currency_id "tagName toLowerCase")
  Tr.catchWith
    (if lowerStr ce.tagName = "select" then
       Tr.catchWith
         (if ce.selectExactOk then act (PAct.selectOption psel.currency_id "US Dollar")
          else Tr.fail (PErr.runtimeErr "select_option label US Dollar failed"))
         (fun _ => act (PAct.evalJs psel.currency_id "pick option matching US or Dollar, dispatch change"))
     else do
       act (PAct.click psel.currency_id)
       act (PAct.fill psel.currency_id "US Dollar")
       act (PAct.keyPress "Enter"))
    (fun e => do
      debugDump "currency_set_exception"
      Tr.fail e)
  act (PAct.sleep 250)
  act (PAct.evalJs psel.currency_id "read value trimmed")
  if trimStr ce.valueAfter = "" then do
    debugDump "currency_not_set"
    Tr.fail (PErr.runtimeErr "Currency could not be set (still empty after attempts).")
  else pure ()

/-- Method `_save_component_and_verify` (lines 854-950).  The fail-fast
validation check sits inside a `try` whose `except Exception: pass` also
catches the RuntimeError the check itself raises, so its outcome never stops
the flow; then the three bounded success signals are tried in order, and if
none fires a diagnostic screenshot is taken and a RuntimeError raised. -/
def saveComponentAndVerify (ve : SaveEnv) (bookingReference : String) : Tr PAct Unit := do
  act (PAct.keyPress "Escape")
  act (PAct.waitFor psel.component_save)
  act (PAct.scroll psel.component_save)
  Tr.catchWith
    (if ve.saveClickOk then act (PAct.click psel.component_save)
     else Tr.fail (PErr.runtimeErr "save click intercepted"))
    (fun _ => act (PAct.evalJs "form#mainForm button.btn.btn-primary[type=\x27submit\x27]" "JS click"))
  act (PAct.sleep 500)
  Tr.catchWith
    (if ve.validationEvalOk then
       if ve.validationShown then do
         debugDump ("validation_after_save_" ++ bookingReference)
         Tr.fail (PErr.runtimeErr "Validation error shown after save.")
       else pure ()
     else Tr.fail (PErr.runtimeErr "validation locator evaluation failed"))
    (fun _ => pure ())
  Tr.catchWith
    (if ve.urlChanged then act (PAct.waitFun "location.href differs from pre-save url")
     else Tr.fail (PErr.timeoutErr "url unchanged within bound"))
    (fun _ =>
      Tr.catchWith
        (if ve.saveBtnGone then act (PAct.waitFun "save button removed, disabled or zero-sized")
         else Tr.fail (PErr.timeoutErr "save button still interactable within bound"))
        (fun _ =>
          Tr.catchWith
            (do act (PAct.sleep 1200)
                if ve.refVisible then act (PAct.waitFun "booking reference text present in body")
                else Tr.fail (PErr.timeoutErr "booking reference not visible within bound"))
            (fun _ => do
              debugDump ("save_unverified_" ++ bookingReference)
              Tr.fail (PErr.runtimeErr ("Component save could not be verified for " ++ bookingReference)))))

/-- Common-field filler `_fill_common_component_fields` (lines 777-797). -/
def fillCommonComponentFields (pe : PageEnv) (c : Component) : Tr PAct Unit := do
  fillDate (pe.dateEnv psel.booking_date) psel.booking_date c.booking_date
  addSupplier (pe.supplierEnv c.supplier) c.supplier
  fillDate (pe.dateEnv psel.start_date) psel.start_date c.start_date
  fillDate (pe.dateEnv psel.end_date) psel.end_date c.end_date
  setCurrencyUsd pe.currencyEnv
  act (PAct.fill psel.estimated_commission c.commission_amount)
  act (PAct.fill psel.total_sales_amount c.total_sales_amount)
  act (PAct.fill psel.supplier_reference c.booking_reference)

/-- Builder `_new_activity` (lines 799-807). -/
def newActivity (pe : PageEnv) (c : Component) : Tr PAct Unit := do
  act (PAct.click psel.component_activity)
  fillCommonComponentFields pe c
  act (PAct.fill psel.activity_name "")
  act (PAct.fill psel.activity_name c.itinerary_details)
  saveComponentAndVerify (pe.saveEnv c.booking_reference) c.booking_reference

/-- Builder `_new_car` (lines 809-815). -/
def newCar (pe : PageEnv) (c : Component) : Tr PAct Unit := do
  act (PAct.click psel.component_car)
  fillCommonComponentFields pe c
  act (PAct.fill psel.car_rental_company c.car_rental_company)
  saveComponentAndVerify (pe.saveEnv c.booking_reference) c.booking_reference

/-- Builder `_new_cruise` (lines 817-824). -/
def newCruise (pe : PageEnv) (c : Component) : Tr PAct Unit := do
  act (PAct.click psel.component_cruise)
  fillCommonComponentFields pe c
  act (PAct.fill psel.cruise_company c.cruise_company)
  act (PAct.fill psel.vessel_name c.ship_name)
  saveComponentAndVerify (pe.saveEnv c.booking_reference) c.booking_reference

/-- Builder `_new_hotel` (lines 826-832). -/
def newHotel (pe : PageEnv) (c : Component) : Tr PAct Unit := do
  act (PAct.click psel.component_hotel)
  fillCommonComponentFields pe c
  act (PAct.fill psel.hotel_name c.hotel_name)
  saveComponentAndVerify (pe.saveEnv c.booking_reference) c.booking_reference

/-- Builder `_new_package` (lines 834-847): toggles can rerender and clear the
currency, so it is forced a second time. -/
def newPackage (pe : PageEnv) (c : Component) : Tr PAct Unit := do
  act (PAct.click psel.component_package)
  fillCommonComponentFields pe c
  act (PAct.click psel.package_activity_choice)
  act (PAct.click psel.package_hotel_choice)
  setCurrencyUsd pe.currencyEnv
  act (PAct.fill psel.activity_name c.itinerary_details)
  saveComponentAndVerify (pe.saveEnv c.booking_reference) c.booking_reference

/-- Builder `_new_insurance` (lines 849-852). -/
def newInsurance (pe : PageEnv) (c : Component) : Tr PAct Unit := do
  act (PAct.click psel.component_insurance)
  fillCommonComponentFields pe c
  saveComponentAndVerify (pe.saveEnv c.booking_reference) c.booking_reference

/-- Dispatcher `_new_component` (lines 748-775): opens the type menu then
routes on the string tag; the activity tag in the source is "Actividad". -/
def newComponent (pe : PageEnv) (c : Component) : Tr PAct Unit := do
  act (PAct.click psel.component_dropdown)
  if c.type = "Actividad" then newActivity pe c
  else if c.type = "Car" then newCar pe c
  else if c.type = "Cruise" then newCruise pe c
  else if c.type = "Hotel" then newHotel pe c
  else if c.type = "Package" then newPackage pe c
  else if c.type = "Insurance" then newInsurance pe c
  else Tr.fail (PErr.runtimeErr ("Unknown component type: " ++ c.type))

/-- The `for c in payload.get("components", [])` loop of `submit_sale`. -/
def addComponents (pe : PageEnv) : List Component → Tr PAct Unit
  | [] => pure ()
  | c :: rest => do
    newComponent pe c
    addComponents pe rest

/-- Resolution of the operated form id in `submit_sale` (line 380):
`payload.get("existing_form_id") or self.default_form_id`.  The `or` falls
back on every falsy value: a missing key and `None` (both `none` here) and
the empty string. -/
def resolveFormId (cfg : ClientConfig) (p : Payload) : String :=
  match p.existing_form_id with
  | none => cfg.default_form_id
  | some s => if s = "" then cfg.default_form_id else s

/-- Conditional traveler add in `submit_sale` (lines 383-385): `if traveler:`
with the dict absent or `None` modelled as `none`. -/
def maybeAddTraveler : Option Traveler → Tr PAct Unit
  | some t => newTraveler t
  | none => pure ()

/-- Method `submit_sale` (lines 357-395), the safe path: open the record, add
the optional traveler and the components, screenshot, and return the form id
with the "-NO-SUBMIT" marker; timeouts are wrapped into a RuntimeError after
a diagnostic screenshot. -/
def submitSale (cfg : ClientConfig) (p : Payload) (pe : PageEnv) : Tr PAct SubmissionResult := do
  startRun cfg pe
  Tr.catchTimeout
    (do goToCommissionsHub pe
        openExistingForm (resolveFormId cfg p)
        maybeAddTraveler p.client_data
        addComponents pe p.components
        debugDump "safe_mode_done_no_submit"
        pure ⟨resolveFormId cfg p ++ "-NO-SUBMIT"⟩)
    (fun m => do
      debugDump "submit_sale_timeout"
      Tr.fail (PErr.runtimeErr ("SAFE submit_sale failed (timeout): " ++ m)))

/-- Helper `_final_submit_commission_form` (lines 272-320): accept pending
dialogs, click the final submit control, then verify via the success banner or
the hub-table row; with neither signal it fails hard. -/
def finalSubmitCommissionForm (fe : FinalEnv) (formId : String) : Tr PAct String := do
  act PAct.dialogOnce
  act (PAct.waitFor psel.final_submit)
  act (PAct.click psel.final_submit)
  act (PAct.waitLoad "networkidle")
  if fe.successBanner then pure formId
  else if fe.hubTableSeen then
    if fe.rowAppears then do
      act (PAct.waitFor (hubTableRowById formId))
      pure formId
    else Tr.fail (PErr.timeoutErr "hub row for form id did not appear")
  else Tr.fail (PErr.runtimeErr ("Could not verify final submission for " ++ formId))

/-- Method `final_submit_existing_form` (lines 235-270): navigate, open the
record, run the final-submit helper; timeouts are wrapped into a RuntimeError
after a diagnostic screenshot, other errors re-raise after their own
screenshot. -/
def finalSubmitExistingForm (cfg : ClientConfig) (formId : String) (pe : PageEnv) : Tr PAct SubmissionResult := do
  startRun cfg pe
  Tr.catchWith
    (do goToCommissionsHub pe
        openExistingForm formId
        let cid ← finalSubmitCommissionForm pe.finalEnv formId
        debugDump ("final_submit_ok_" ++ formId)
        pure ⟨cid⟩)
    (fun e =>
      match e with
      | PErr.timeoutErr m => do
        debugDump ("final_submit_timeout_" ++ formId)
        Tr.fail (PErr.runtimeErr ("FINAL submit failed (timeout) for " ++ formId ++ ": " ++ m))
      | other => do
        debugDump ("final_submit_error_" ++ formId)
        Tr.fail other)

/-- Method `_final_submit_and_verify` (lines 952-967): hard-blocked, always
raises; no caller in the module reaches it. -/
def finalSubmitAndVerify : Tr PAct Unit :=
  Tr.fail (PErr.runtimeErr "Final submit is DISABLED by policy (production-only portal). Do not call this method.")

/-!
Embedding of the CLI entry point `run_submit_sale.main` (lines 35-138).  The
portal client is abstracted by the calls main makes to it and the results each
call returns — the boundary the spec names as the capability contract; the
DB session and JSON-file collaborators named out of scope by the spec are
oracles.  The trace records the portal-client calls in order.
-/

/-- One call main makes on the portal client. -/
inductive PortalCall where
  | loginCall
  | submitSaleCall
  | finalSubmitCall (formId : String)
  | closeCall
deriving DecidableEq, Repr

/-- Settings consulted by `_require_portal_settings`; `none` models an unset
variable, `some ""` an empty one — both falsy in the source checks. -/
structure CliSettings where
  portal_url : Option String
  portal_username : Option String
  portal_password : Option String
deriving DecidableEq, Repr

/-- Python truthiness of an optional string setting. -/
def strFalsy : Option String → Bool
  | none => true
  | some s => s = ""

/-- Missing-settings list built by `_require_portal_settings` (lines 14-23). -/
def missingSettings (s : CliSettings) : List String :=
  (if strFalsy s.portal_url then ["PORTAL_URL"] else []) ++
  (if strFalsy s.portal_username then ["PORTAL_USERNAME"] else []) ++
  (if strFalsy s.portal_password then ["PORTAL_PASSWORD"] else [])

/-- Python `", ".join`. -/
def joinComma : List String → String
  | [] => ""
  | [x] => x
  | x :: rest => x ++ ", " ++ joinComma rest

/-- Parsed CLI sub-command (argparse sub-parsers of `main`). -/
inductive CliCmd where
  | submitSaleCmd (saleId : Int)
  | portalExistingForm (formId : String)
  | portalFinalSubmit (formId : String) (ack : Bool)
deriving DecidableEq, Repr

/-- Behavior of the portal client under test and of the out-of-scope
collaborators: the result each call returns when main makes it. -/
structure CliPortal where
  loginResult : Except PErr Unit
  submitSaleResult : Except PErr SubmissionResult
  finalSubmitResult : String → Except PErr SubmissionResult
  loadFilesResult : Except PErr Unit

/-- Record one portal call together with the behavior-prescribed outcome. -/
def callLogin (pb : CliPortal) : Tr PortalCall Unit :=
  ⟨[PortalCall.loginCall], pb.loginResult⟩

/-- Record a `submit_sale` call. -/
def callSubmitSale (pb : CliPortal) : Tr PortalCall SubmissionResult :=
  ⟨[PortalCall.submitSaleCall], pb.submitSaleResult⟩

/-- Record a `final_submit_existing_form` call. -/
def callFinalSubmit (pb : CliPortal) (formId : String) : Tr PortalCall SubmissionResult :=
  ⟨[PortalCall.finalSubmitCall formId], pb.finalSubmitResult formId⟩

/-- Record the `close` call of the `finally` block; `close` is documented safe
to call at any point and never raises. -/
def callClose : Tr PortalCall Unit :=
  ⟨[PortalCall.closeCall], Except.ok ()⟩

/-- Lift an oracle outcome that makes no portal call. -/
def Tr.fromExcept (x : Except PErr α) : Tr A α := ⟨[], x⟩

/-- Body of the `try:` block of `main` (lines 100-135): login, then dispatch on
the sub-command.  `portal-existing-form` loads the optional JSON files (an
out-of-scope oracle) and calls the safe `submit_sale`; `submit-sale` runs
`SalesSubmissionService.submit_sale`, which logs in again through the same
portal and calls the safe `submit_sale`; `portal-final-submit` refuses without
the acknowledgment flag and otherwise calls `final_submit_existing_form` with
the given form id.  The returned string is the confirmation id the command
prints, when it prints one. -/
def mainBody (cmd : CliCmd) (pb : CliPortal) : Tr PortalCall (Option String) := do
  callLogin pb
  match cmd with
  | CliCmd.portalExistingForm _ => do
    Tr.fromExcept pb.loadFilesResult
    let r ← callSubmitSale pb
    pure (some r.confirmation_id)
  | CliCmd.submitSaleCmd _ => do
    callLogin pb
    let r ← callSubmitSale pb
    pure (some r.confirmation_id)
  | CliCmd.portalFinalSubmit formId ack =>
    if ack then do
      let r ← callFinalSubmit pb formId
      pure (some r.confirmation_id)
    else Tr.fail (PErr.runtimeErr "Refusing to final-submit without --i-understand-this-will-submit")

/-- CLI entry point `main`: the settings precondition checks run before the
portal client exists, and the `try ... finally portal.close()` wraps the whole
body. -/
def mainRun (s : CliSettings) (cmd : CliCmd) (pb : CliPortal) : Tr PortalCall (Option String) :=
  if (missingSettings s).isEmpty then
    if strFalsy s.portal_url then
      Tr.fail (PErr.runtimeErr "PORTAL_URL is missing")
    else
      Tr.tryFinally (mainBody cmd pb) callClose
  else
    Tr.fail (PErr.runtimeErr ("Missing required portal settings: " ++ joinComma (missingSettings s)))

/-!
Structural safety of the safe path (claim C1): no interaction any run of
`submit_sale` emits is addressed to the final-submit control.
-/

/-- Dynamic selectors built from caller strings all carry the `xpath=` engine
marker and can never equal the final-submit selector. -/
theorem xpath_ne_btn (s : String) : ("xpath=" ++ s) ≠ psel.final_submit := by
  intro h
  have hd := congrArg String.data h
  rw [String.data_append] at hd
  have h1 : "xpath=".data = ['x', 'p', 'a', 't', 'h', '='] := rfl
  have h2 : (psel.final_submit).data = ['#', 'b', 't', 'n', 'S', 'u', 'b', 'm', 'i', 't'] := rfl
  rw [h1, h2] at hd
  simp at hd

/-- A fill addressed to a selector other than the final-submit selector never
targets the final-submit control, whatever value it fills. -/
theorem fill_target_ne {sel : String} (h : sel ≠ psel.final_submit) (v : String) :
    (PAct.fill sel v).target ≠ some psel.final_submit := fun hc => h (Option.some.inj hc)

/-- The same for a typing burst. -/
theorem typeText_target_ne {sel : String} (h : sel ≠ psel.final_submit) (v : String) (ms : Nat) :
    (PAct.typeText sel v ms).target ≠ some psel.final_submit := fun hc => h (Option.some.inj hc)

/-- Navigation has no selector target. -/
theorem goto_target_ne (u : String) : (PAct.goto u).target ≠ some psel.final_submit :=
  fun hc => Option.noConfusion hc

/-- Screenshots have no selector target. -/
theorem screenshot_target_ne (tag : String) : (PAct.screenshot tag).target ≠ some psel.final_submit :=
  fun hc => Option.noConfusion hc

/-- A run avoids the final-submit control when none of its emitted
interactions is addressed to that selector. -/
def avoidsFinal (x : Tr PAct α) : Prop :=
  ∀ a ∈ x.trace, a.target ≠ some psel.final_submit

theorem avoidsFinal_pure (v : α) : avoidsFinal (pure v : Tr PAct α) := by
  intro a ha
  simp [Tr.pure_eq] at ha

theorem avoidsFinal_act {a0 : PAct} (h : a0.target ≠ some psel.final_submit) :
    avoidsFinal (act a0) := by
  intro a ha
  have he : a = a0 := by simpa [act] using ha
  rwa [he]

theorem avoidsFinal_fail (e : PErr) : avoidsFinal (Tr.fail e : Tr PAct α) := by
  intro a ha
  simp [Tr.fail] at ha

theorem avoidsFinal_bind {x : Tr PAct α} {f : α → Tr PAct β}
    (hx : avoidsFinal x) (hf : ∀ v, avoidsFinal (f v)) : avoidsFinal (x >>= f) := by
  intro a ha
  rcases Tr.mem_trace_bind ha with h | ⟨v, _, h⟩
  · exact hx a h
  · exact hf v a h

theorem avoidsFinal_catchWith {x : Tr PAct α} {h : PErr → Tr PAct α}
    (hx : avoidsFinal x) (hh : ∀ e, avoidsFinal (h e)) : avoidsFinal (Tr.catchWith x h) := by
  intro a ha
  rcases Tr.mem_trace_catchWith ha with hm | ⟨e, _, hm⟩
  · exact hx a hm
  · exact hh e a hm

theorem avoidsFinal_catchTimeout {x : Tr PAct α} {h : String → Tr PAct α}
    (hx : avoidsFinal x) (hh : ∀ m, avoidsFinal (h m)) : avoidsFinal (Tr.catchTimeout x h) := by
  intro a ha
  rcases Tr.mem_trace_catchTimeout ha with hm | ⟨m, _, hm⟩
  · exact hx a hm
  · exact hh m a hm

theorem avoidsFinal_ite {c : Prop} [Decidable c] {x y : Tr PAct α}
    (hx : avoidsFinal x) (hy : avoidsFinal y) : avoidsFinal (if c then x else y) := by
  split <;> assumption

theorem avoids_startRun (cfg : ClientConfig) (pe : PageEnv) : avoidsFinal (startRun cfg pe) := by
  unfold startRun
  exact avoidsFinal_ite (avoidsFinal_pure _) (avoidsFinal_act (goto_target_ne _))

theorem avoids_debugDump (tag : String) : avoidsFinal (debugDump tag) :=
  avoidsFinal_act (screenshot_target_ne tag)

theorem avoids_goToCommissionsHub (pe : PageEnv) : avoidsFinal (goToCommissionsHub pe) := by
  unfold goToCommissionsHub
  refine avoidsFinal_ite (avoidsFinal_pure _) ?_
  exact avoidsFinal_bind (avoidsFinal_act (by decide)) fun _ =>
    avoidsFinal_bind (avoidsFinal_act (by decide)) fun _ => avoidsFinal_act (by decide)

theorem avoids_openExistingForm (fid : String) : avoidsFinal (openExistingForm fid) := by
  unfold openExistingForm
  refine avoidsFinal_bind (avoidsFinal_act ?_) fun _ =>
    avoidsFinal_bind (avoidsFinal_act ?_) fun _ => avoidsFinal_act ?_ <;>
  all_goals exact fun h => xpath_ne_btn _ (Option.some.inj h)

theorem avoids_newTraveler (t : Traveler) : avoidsFinal (newTraveler t) := by
  unfold newTraveler
  refine avoidsFinal_bind (avoidsFinal_act (by decide)) fun _ => ?_
  refine avoidsFinal_bind (avoidsFinal_act (fill_target_ne (by decide) _)) fun _ => ?_
  refine avoidsFinal_bind (avoidsFinal_act (fill_target_ne (by decide) _)) fun _ => ?_
  refine avoidsFinal_bind (avoidsFinal_act (fill_target_ne (by decide) _)) fun _ => ?_
  exact avoidsFinal_bind (avoidsFinal_act (fill_target_ne (by decide) _)) fun _ => avoidsFinal_act (by decide)

theorem avoids_maybeAddTraveler (t : Option Traveler) : avoidsFinal (maybeAddTraveler t) := by
  cases t with
  | some t0 => exact avoids_newTraveler t0
  | none => exact avoidsFinal_pure _

theorem avoids_detectDateFormat (de : DateEnv) {sel : String}
    (h : sel ≠ psel.final_submit) : avoidsFinal (detectDateFormat de sel) := by
  unfold detectDateFormat
  have hact : (PAct.evalJs sel "getAttribute placeholder toUpperCase").target ≠ some psel.final_submit :=
    fun hc => h (Option.some.inj hc)
  have hact2 : (PAct.evalJs sel "getAttribute aria-label toUpperCase").target ≠ some psel.final_submit :=
    fun hc => h (Option.some.inj hc)
  refine avoidsFinal_bind (avoidsFinal_act hact) fun _ => ?_
  refine avoidsFinal_bind (avoidsFinal_act hact2) fun _ => ?_
  exact avoidsFinal_ite (avoidsFinal_pure _) (avoidsFinal_ite (avoidsFinal_pure _) (avoidsFinal_pure _))

theorem avoids_fillDate (de : DateEnv) {sel : String} (h : sel ≠ psel.final_submit)
    (d : PyDate) : avoidsFinal (fillDate de sel d) := by
  unfold fillDate
  have hne : ∀ v : String, (PAct.fill sel v).target ≠ some psel.final_submit :=
    fun v hc => h (Option.some.inj hc)
  refine avoidsFinal_bind (avoidsFinal_act fun hc => h (Option.some.inj hc)) fun _ => ?_
  refine avoidsFinal_ite (avoidsFinal_act (hne _)) ?_
  exact avoidsFinal_bind (avoids_detectDateFormat de h) fun fmt => avoidsFinal_act (hne _)

theorem avoids_supplierOpenAndType (t : String) (ms : Nat) :
    avoidsFinal (supplierOpenAndType t ms) := by
  unfold supplierOpenAndType
  refine avoidsFinal_bind (avoidsFinal_act (by decide)) fun _ => ?_
  refine avoidsFinal_bind (avoidsFinal_act (by decide)) fun _ => ?_
  refine avoidsFinal_bind (avoidsFinal_act (by decide)) fun _ => ?_
  exact avoidsFinal_bind (avoidsFinal_act (by decide)) fun _ => avoidsFinal_act (typeText_target_ne (by decide) _ _)

theorem avoids_supplierWaitMenu (b : Bool) : avoidsFinal (supplierWaitMenu b) := by
  unfold supplierWaitMenu
  exact avoidsFinal_ite (avoidsFinal_act (by decide)) (avoidsFinal_fail _)

theorem avoids_supplierClickBestMatch (t : String) (b : Bool) :
    avoidsFinal (supplierClickBestMatch t b) := by
  unfold supplierClickBestMatch
  refine avoidsFinal_ite ?_ ?_
  · exact avoidsFinal_bind (avoidsFinal_act fun h => xpath_ne_btn _ (Option.some.inj h)) fun _ =>
      avoidsFinal_act fun h => xpath_ne_btn _ (Option.some.inj h)
  · refine avoidsFinal_bind (avoidsFinal_act (by decide)) fun _ => ?_
    exact avoidsFinal_bind (avoidsFinal_act (by decide)) fun _ => avoidsFinal_act (by decide)

theorem avoids_supplierWaitValid (v : String) : avoidsFinal (supplierWaitValid v) := by
  unfold supplierWaitValid
  exact avoidsFinal_ite (avoidsFinal_act (by decide)) (avoidsFinal_fail _)

theorem avoids_addSupplier (se : SupplierEnv) (t : String) : avoidsFinal (addSupplier se t) := by
  unfold addSupplier
  refine avoidsFinal_bind (avoids_supplierOpenAndType t 15) fun _ => ?_
  refine avoidsFinal_bind
    (avoidsFinal_catchWith
      (avoidsFinal_bind (avoids_supplierWaitMenu _) fun _ => avoids_supplierClickBestMatch _ _)
      (fun _ => avoidsFinal_bind (avoidsFinal_act (by decide)) fun _ => avoidsFinal_act (by decide)))
    fun _ => ?_
  refine avoidsFinal_bind (avoidsFinal_act (by decide)) fun _ => ?_
  refine avoidsFinal_catchWith (avoids_supplierWaitValid _) fun _ => ?_
  refine avoidsFinal_bind (avoids_supplierOpenAndType t 40) fun _ => ?_
  refine avoidsFinal_bind (avoids_supplierWaitMenu _) fun _ => ?_
  refine avoidsFinal_bind (avoids_supplierClickBestMatch _ _) fun _ => ?_
  exact avoidsFinal_bind (avoidsFinal_act (by decide)) fun _ => avoids_supplierWaitValid _

theorem avoids_setCurrencyUsd (ce : CurrencyEnv) : avoidsFinal (setCurrencyUsd ce) := by
  unfold setCurrencyUsd
  refine avoidsFinal_bind (avoidsFinal_act (by decide)) fun _ => ?_
  refine avoidsFinal_bind (avoidsFinal_act (by decide)) fun _ => ?_
  refine avoidsFinal_bind
    (avoidsFinal_catchWith
      (avoidsFinal_ite
        (avoidsFinal_catchWith
          (avoidsFinal_ite (avoidsFinal_act (by decide)) (avoidsFinal_fail _))
          (fun _ => avoidsFinal_act (by decide)))
        (avoidsFinal_bind (avoidsFinal_act (by decide)) fun _ =>
          avoidsFinal_bind (avoidsFinal_act (by decide)) fun _ => avoidsFinal_act (by decide)))
      (fun e => avoidsFinal_bind (avoids_debugDump _) fun _ => avoidsFinal_fail _))
    fun _ => ?_
  refine avoidsFinal_bind (avoidsFinal_act (by decide)) fun _ => ?_
  refine avoidsFinal_bind (avoidsFinal_act (by decide)) fun _ => ?_
  refine avoidsFinal_ite ?_ (avoidsFinal_pure _)
  exact avoidsFinal_bind (avoids_debugDump _) fun _ => avoidsFinal_fail _

theorem avoids_saveComponentAndVerify (ve : SaveEnv) (ref : String) :
    avoidsFinal (saveComponentAndVerify ve ref) := by
  unfold saveComponentAndVerify
  refine avoidsFinal_bind (avoidsFinal_act (by decide)) fun _ => ?_
  refine avoidsFinal_bind (avoidsFinal_act (by decide)) fun _ => ?_
  refine avoidsFinal_bind (avoidsFinal_act (by decide)) fun _ => ?_
  refine avoidsFinal_bind
    (avoidsFinal_catchWith
      (avoidsFinal_ite (avoidsFinal_act (by decide)) (avoidsFinal_fail _))
      (fun _ => avoidsFinal_act (by decide)))
    fun _ => ?_
  refine avoidsFinal_bind (avoidsFinal_act (by decide)) fun _ => ?_
  refine avoidsFinal_bind
    (avoidsFinal_catchWith
      (avoidsFinal_ite
        (avoidsFinal_ite
          (avoidsFinal_bind (avoids_debugDump _) fun _ => avoidsFinal_fail _)
          (avoidsFinal_pure _))
        (avoidsFinal_fail _))
      (fun _ => avoidsFinal_pure _))
    fun _ => ?_
  refine avoidsFinal_catchWith (avoidsFinal_ite (avoidsFinal_act (by decide)) (avoidsFinal_fail _)) fun _ => ?_
  refine avoidsFinal_catchWith (avoidsFinal_ite (avoidsFinal_act (by decide)) (avoidsFinal_fail _)) fun _ => ?_
  refine avoidsFinal_catchWith ?_ fun _ => ?_
  · refine avoidsFinal_bind (avoidsFinal_act (by decide)) fun _ => ?_
    exact avoidsFinal_ite (avoidsFinal_act (by decide)) (avoidsFinal_fail _)
  · exact avoidsFinal_bind (avoids_debugDump _) fun _ => avoidsFinal_fail _

theorem avoids_fillCommonComponentFields (pe : PageEnv) (c : Component) :
    avoidsFinal (fillCommonComponentFields pe c) := by
  unfold fillCommonComponentFields
  refine avoidsFinal_bind (avoids_fillDate _ (by decide) _) fun _ => ?_
  refine avoidsFinal_bind (avoids_addSupplier _ _) fun _ => ?_
  refine avoidsFinal_bind (avoids_fillDate _ (by decide) _) fun _ => ?_
  refine avoidsFinal_bind (avoids_fillDate _ (by decide) _) fun _ => ?_
  refine avoidsFinal_bind (avoids_setCurrencyUsd _) fun _ => ?_
  refine avoidsFinal_bind (avoidsFinal_act (fill_target_ne (by decide) _)) fun _ => ?_
  exact avoidsFinal_bind (avoidsFinal_act (fill_target_ne (by decide) _)) fun _ =>
    avoidsFinal_act (fill_target_ne (by decide) _)

theorem avoids_newActivity (pe : PageEnv) (c : Component) : avoidsFinal (newActivity pe c) := by
  unfold newActivity
  refine avoidsFinal_bind (avoidsFinal_act (by decide)) fun _ => ?_
  refine avoidsFinal_bind (avoids_fillCommonComponentFields pe c) fun _ => ?_
  refine avoidsFinal_bind (avoidsFinal_act (by decide)) fun _ => ?_
  exact avoidsFinal_bind (avoidsFinal_act (fill_target_ne (by decide) _)) fun _ =>
    avoids_saveComponentAndVerify _ _

theorem avoids_newCar (pe : PageEnv) (c : Component) : avoidsFinal (newCar pe c) := by
  unfold newCar
  refine avoidsFinal_bind (avoidsFinal_act (by decide)) fun _ => ?_
  refine avoidsFinal_bind (avoids_fillCommonComponentFields pe c) fun _ => ?_
  exact avoidsFinal_bind (avoidsFinal_act (fill_target_ne (by decide) _)) fun _ =>
    avoids_saveComponentAndVerify _ _

theorem avoids_newCruise (pe : PageEnv) (c : Component) : avoidsFinal (newCruise pe c) := by
  unfold newCruise
  refine avoidsFinal_bind (avoidsFinal_act (by decide)) fun _ => ?_
  refine avoidsFinal_bind (avoids_fillCommonComponentFields pe c) fun _ => ?_
  refine avoidsFinal_bind (avoidsFinal_act (fill_target_ne (by decide) _)) fun _ => ?_
  exact avoidsFinal_bind (avoidsFinal_act (fill_target_ne (by decide) _)) fun _ =>
    avoids_saveComponentAndVerify _ _

theorem avoids_newHotel (pe : PageEnv) (c : Component) : avoidsFinal (newHotel pe c) := by
  unfold newHotel
  refine avoidsFinal_bind (avoidsFinal_act (by decide)) fun _ => ?_
  refine avoidsFinal_bind (avoids_fillCommonComponentFields pe c) fun _ => ?_
  exact avoidsFinal_bind (avoidsFinal_act (fill_target_ne (by decide) _)) fun _ =>
    avoids_saveComponentAndVerify _ _

theorem avoids_newPackage (pe : PageEnv) (c : Component) : avoidsFinal (newPackage pe c) := by
  unfold newPackage
  refine avoidsFinal_bind (avoidsFinal_act (by decide)) fun _ => ?_
  refine avoidsFinal_bind (avoids_fillCommonComponentFields pe c) fun _ => ?_
  refine avoidsFinal_bind (avoidsFinal_act (by decide)) fun _ => ?_
  refine avoidsFinal_bind (avoidsFinal_act (by decide)) fun _ => ?_
  refine avoidsFinal_bind (avoids_setCurrencyUsd _) fun _ => ?_
  exact avoidsFinal_bind (avoidsFinal_act (fill_target_ne (by decide) _)) fun _ =>
    avoids_saveComponentAndVerify _ _

theorem avoids_newInsurance (pe : PageEnv) (c : Component) : avoidsFinal (newInsurance pe c) := by
  unfold newInsurance
  refine avoidsFinal_bind (avoidsFinal_act (by decide)) fun _ => ?_
  exact avoidsFinal_bind (avoids_fillCommonComponentFields pe c) fun _ => avoids_saveComponentAndVerify _ _

theorem avoids_newComponent (pe : PageEnv) (c : Component) : avoidsFinal (newComponent pe c) := by
  unfold newComponent
  refine avoidsFinal_bind (avoidsFinal_act (by decide)) fun _ => ?_
  refine avoidsFinal_ite (avoids_newActivity pe c) ?_
  refine avoidsFinal_ite (avoids_newCar pe c) ?_
  refine avoidsFinal_ite (avoids_newCruise pe c) ?_
  refine avoidsFinal_ite (avoids_newHotel pe c) ?_
  refine avoidsFinal_ite (avoids_newPackage pe c) ?_
  exact avoidsFinal_ite (avoids_newInsurance pe c) (avoidsFinal_fail _)

theorem avoids_addComponents (pe : PageEnv) (cs : List Component) :
    avoidsFinal (addComponents pe cs) := by
  induction cs with
  | nil => exact avoidsFinal_pure _
  | cons c rest ih =>
    unfold addComponents
    exact avoidsFinal_bind (avoids_newComponent pe c) fun _ => ih

/-- Claim C1.  For every payload and every page environment, no interaction
emitted by a run of the safe `submit_sale` path is addressed to the
final-submit control `#btnSubmit`: its implementation never uses the
final-submit selector, directly or through the final-submit helper. -/
theorem submit_sale_never_targets_final_submit
    (cfg : ClientConfig) (p : Payload) (pe : PageEnv) :
    ∀ a ∈ (submitSale cfg p pe).trace, a.target ≠ some psel.final_submit := by
  have hmain : avoidsFinal (submitSale cfg p pe) := by
    unfold submitSale
    refine avoidsFinal_bind (avoids_startRun cfg pe) fun _ => ?_
    refine avoidsFinal_catchTimeout ?_ fun m => ?_
    · refine avoidsFinal_bind (avoids_goToCommissionsHub pe) fun _ => ?_
      refine avoidsFinal_bind (avoids_openExistingForm _) fun _ => ?_
      refine avoidsFinal_bind (avoids_maybeAddTraveler _) fun _ => ?_
      refine avoidsFinal_bind (avoids_addComponents pe p.components) fun _ => ?_
      exact avoidsFinal_bind (avoids_debugDump _) fun _ => avoidsFinal_pure _
    · exact avoidsFinal_bind (avoids_debugDump _) fun _ => avoidsFinal_fail _
  exact hmain

/-- Witness for claim C1 at a concrete run: the the navigation interaction of a
fresh session is in the trace and is not addressed to the final-submit
control. -/
def startEnv : PageEnv :=
  ⟨false, true, fun _ => ⟨"date", "", ""⟩, fun _ => ⟨true, true, true, true, "ID-1", "ID-1"⟩,
   ⟨"select", true, "US Dollar"⟩, fun _ => ⟨true, false, true, true, false, false⟩, ⟨true, false, false⟩⟩

theorem submit_sale_never_targets_final_submit_check :
    (PAct.goto "https://portal" ∈ (submitSale ⟨"https://portal", "EVO2026153349"⟩ ⟨none, none, []⟩ startEnv).trace)
    ∧ (PAct.goto "https://portal").target ≠ some psel.final_submit :=
  ⟨by decide,
   submit_sale_never_targets_final_submit ⟨"https://portal", "EVO2026153349"⟩ ⟨none, none, []⟩ startEnv
     (PAct.goto "https://portal") (by decide)⟩

/-!
Save-verifier, dispatcher, date and supplier theorems (claims C5, C7, C8, C9).
-/

/-- Projection lemma: the trace of an interaction followed by a continuation. -/
theorem trace_act_bind (a : PAct) (f : Unit → Tr PAct β) :
    ((act a) >>= f).trace = a :: (f ()).trace := rfl

/-- Page state of the C5 failing input: the validation-error indicator is
visible after the save click, and the browser location also changes. -/
def c5SaveEnv : SaveEnv := ⟨true, true, true, true, false, false⟩

/-- Claim C5 (code bug evidence).  On a save after which a validation-error
indicator is visible, the verifier is specified (and documented in the
method's own docstring) to fail immediately; but the RuntimeError its
fail-fast check raises is caught by the same `except Exception: pass` that
guards the locator evaluation, so the run takes the validation screenshot,
swallows the failure, evaluates the success signals anyway and accepts. -/
theorem save_verify_accepts_despite_visible_validation_error :
    c5SaveEnv.validationShown = true
    ∧ (saveComponentAndVerify c5SaveEnv "BR-2026-01").result = Except.ok ()
    ∧ PAct.screenshot ("validation_after_save_" ++ "BR-2026-01")
        ∈ (saveComponentAndVerify c5SaveEnv "BR-2026-01").trace :=
  ⟨rfl, rfl, by decide⟩

/-- Component dict carrying the type tag "Activity" named by claim C7. -/
def c7Component : Component :=
  ⟨"Activity", ⟨2026, 1, 2⟩, "Acme Cruises", ⟨2026, 1, 3⟩, ⟨2026, 1, 4⟩, "10.5", "100.0",
   "BR-7", "City tour", "Hertz", "Royal", "Sea Queen", "Hilton"⟩

/-- Claim C7 (counterexample).  The dispatcher does not route the tag
"Activity": it raises the unknown-component-type error on it, because the
source dispatches the activity builder on the tag "Actividad". -/
theorem component_dispatch_rejects_activity_tag :
    c7Component.type = "Activity"
    ∧ (newComponent startEnv c7Component).result
        = Except.error (PErr.runtimeErr "Unknown component type: Activity") :=
  ⟨rfl, rfl⟩

/-- Claim C7 (amended).  For every component dict whose type tag is one of the
six source variants Actividad, Car, Cruise, Hotel, Package, Insurance, the
dispatcher opens the type menu and routes to the corresponding type-specific
builder, and for every other tag (including "Activity") it raises the
unknown-component-type error after the menu click alone. -/
theorem component_dispatch_routes_source_tags (pe : PageEnv) (c : Component) :
    (c.type = "Actividad" → (newComponent pe c).trace.take 2
        = [PAct.click psel.component_dropdown, PAct.click psel.component_activity])
  ∧ (c.type = "Car" → (newComponent pe c).trace.take 2
        = [PAct.click psel.component_dropdown, PAct.click psel.component_car])
  ∧ (c.type = "Cruise" → (newComponent pe c).trace.take 2
        = [PAct.click psel.component_dropdown, PAct.click psel.component_cruise])
  ∧ (c.type = "Hotel" → (newComponent pe c).trace.take 2
        = [PAct.click psel.component_dropdown, PAct.click psel.component_hotel])
  ∧ (c.type = "Package" → (newComponent pe c).trace.take 2
        = [PAct.click psel.component_dropdown, PAct.click psel.component_package])
  ∧ (c.type = "Insurance" → (newComponent pe c).trace.take 2
        = [PAct.click psel.component_dropdown, PAct.click psel.component_insurance])
  ∧ (c.type ∉ (["Actividad", "Car", "Cruise", "Hotel", "Package", "Insurance"] : List String) →
      (newComponent pe c).result = Except.error (PErr.runtimeErr ("Unknown component type: " ++ c.type))
      ∧ (newComponent pe c).trace = [PAct.click psel.component_dropdown]) := by
  refine ⟨?_, ?_, ?_, ?_, ?_, ?_, ?_⟩
  · intro h; simp [newComponent, h, newActivity, List.take]
  · intro h; simp [newComponent, h, newCar, List.take]
  · intro h; simp [newComponent, h, newCruise, List.take]
  · intro h; simp [newComponent, h, newHotel, List.take]
  · intro h; simp [newComponent, h, newPackage, List.take]
  · intro h; simp [newComponent, h, newInsurance, List.take]
  · intro h
    simp only [List.mem_cons, List.mem_singleton, not_or] at h
    obtain ⟨h1, h2, h3, h4, h5, h6, _⟩ := h
    constructor
    · simp [newComponent, h1, h2, h3, h4, h5, h6, Tr.fail, Tr.bind_eq, Tr.bind, act]
    · simp [newComponent, h1, h2, h3, h4, h5, h6, Tr.fail, Tr.bind_eq, Tr.bind, act]

/-- Witness for claim C7 at concrete inputs: a "Car"-tagged component routes to
the car builder, and a tag outside the six raises the dispatcher error. -/
theorem component_dispatch_routes_source_tags_check :
    ({c7Component with type := "Car"} : Component).type = "Car"
    ∧ (newComponent startEnv {c7Component with type := "Car"}).trace.take 2
        = [PAct.click psel.component_dropdown, PAct.click psel.component_car] :=
  ⟨rfl, (component_dispatch_routes_source_tags startEnv {c7Component with type := "Car"}).2.1 rfl⟩

/-- Claim C8.  For every calendar date and every date control: a date-typed
control is filled with exactly the ISO year-month-day rendering; a non-date
control whose placeholder/aria-label hint contains the day-before-month marker
is filled with zero-padded day/month/year; and with no marker at all the
month-before-day default is used. -/
theorem fill_date_formats (de : DateEnv) (sel : String) (d : PyDate) :
    (lowerStr de.typeAttr = "date" →
      (fillDate de sel d).trace
        = [PAct.evalJs sel "getAttribute type toLowerCase", PAct.fill sel d.isoformat]
      ∧ d.isoformat = pad4 d.year ++ "-" ++ pad2 d.month ++ "-" ++ pad2 d.day)
  ∧ (lowerStr de.typeAttr ≠ "date" →
      strHasSub (upperStr de.placeholder ++ " " ++ upperStr de.ariaLabel) "DD/MM" = true →
      (fillDate de sel d).trace
        = [PAct.evalJs sel "getAttribute type toLowerCase",
           PAct.evalJs sel "getAttribute placeholder toUpperCase",
           PAct.evalJs sel "getAttribute aria-label toUpperCase",
           PAct.fill sel (pad2 d.day ++ "/" ++ pad2 d.month ++ "/" ++ pad4 d.year)])
  ∧ (lowerStr de.typeAttr ≠ "date" →
      strHasSub (upperStr de.placeholder ++ " " ++ upperStr de.ariaLabel) "DD/MM" = false →
      strHasSub (upperStr de.placeholder ++ " " ++ upperStr de.ariaLabel) "MM/DD" = false →
      (fillDate de sel d).trace
        = [PAct.evalJs sel "getAttribute type toLowerCase",
           PAct.evalJs sel "getAttribute placeholder toUpperCase",
           PAct.evalJs sel "getAttribute aria-label toUpperCase",
           PAct.fill sel (pad2 d.month ++ "/" ++ pad2 d.day ++ "/" ++ pad4 d.year)]) := by
  refine ⟨?_, ?_, ?_⟩
  · intro h
    constructor
    · simp [fillDate, h, Tr.bind_eq, Tr.bind, Tr.pure_eq, act]
    · rfl
  · intro h hdm
    simp [fillDate, h, detectDateFormat, hdm, formatDate, Tr.bind_eq, Tr.bind, Tr.pure_eq, act]
  · intro h hdm hmd
    simp [fillDate, h, detectDateFormat, hdm, hmd, formatDate, Tr.bind_eq, Tr.bind, Tr.pure_eq, act]

/-- Witness for claim C8 at concrete controls: a native date input gets the ISO
rendering, a dd/mm-hinted text input gets day/month/year, an unhinted text
input gets the month/day/year default, each zero-padded. -/
theorem fill_date_formats_check :
    (lowerStr ("DATE" : String) = "date"
      ∧ (fillDate ⟨"DATE", "", ""⟩ "#StartDate" ⟨2026, 3, 7⟩).trace
          = [PAct.evalJs "#StartDate" "getAttribute type toLowerCase",
             PAct.fill "#StartDate" "2026-03-07"])
    ∧ ((fillDate ⟨"text", "dd/mm/yyyy", ""⟩ "#StartDate" ⟨2026, 3, 7⟩).trace.getLast?
        = some (PAct.fill "#StartDate" "07/03/2026"))
    ∧ ((fillDate ⟨"text", "pick a date", ""⟩ "#StartDate" ⟨2026, 3, 7⟩).trace.getLast?
        = some (PAct.fill "#StartDate" "03/07/2026")) := by
  refine ⟨⟨rfl, ?_⟩, ?_, ?_⟩
  · exact ((fill_date_formats ⟨"DATE", "", ""⟩ "#StartDate" ⟨2026, 3, 7⟩).1 rfl).1
  · rw [(fill_date_formats ⟨"text", "dd/mm/yyyy", ""⟩ "#StartDate" ⟨2026, 3, 7⟩).2.1
      (by decide) rfl]
    rfl
  · rw [(fill_date_formats ⟨"text", "pick a date", ""⟩ "#StartDate" ⟨2026, 3, 7⟩).2.2
      (by decide) rfl rfl]
    rfl

set_option maxHeartbeats 1600000 in
/-- Claim C9.  Every run of the supplier resolver types at most twice (the two
bounded attempts), returns normally exactly when the hidden supplier-identifier
value observed in an attempt verification window is non-empty and differs
from the all-zero GUID (for the second attempt, additionally the re-opened
suggestion list must render), and raises when the identifier is still invalid
after the second attempt. -/
theorem add_supplier_retry_bound_and_validity (se : SupplierEnv) (text : String) :
    ((addSupplier se text).trace.countP PAct.isTyping ≤ 2)
  ∧ ((addSupplier se text).result = Except.ok () ↔
      (supplierIdIsValid se.idValue1 = true
        ∨ (se.menuAppears2 = true ∧ supplierIdIsValid se.idValue2 = true)))
  ∧ (supplierIdIsValid se.idValue1 = false → supplierIdIsValid se.idValue2 = false →
      ∃ e, (addSupplier se text).result = Except.error e) := by
  obtain ⟨m1, e1, m2, e2, v1, v2⟩ := se
  refine ⟨?_, ?_, ?_⟩
  · rcases hv1 : supplierIdIsValid v1 <;> rcases hv2 : supplierIdIsValid v2 <;>
      rcases m1 <;> rcases e1 <;> rcases m2 <;> rcases e2 <;>
      simp [addSupplier, supplierOpenAndType, supplierWaitMenu, supplierClickBestMatch,
        supplierWaitValid, hv1, hv2, Tr.bind_eq, Tr.bind, Tr.pure_eq, act, Tr.fail,
        Tr.catchWith] <;>
      exact of_decide_eq_true rfl
  · rcases hv1 : supplierIdIsValid v1 <;> rcases hv2 : supplierIdIsValid v2 <;>
      rcases m1 <;> rcases e1 <;> rcases m2 <;> rcases e2 <;>
      simp [addSupplier, supplierOpenAndType, supplierWaitMenu, supplierClickBestMatch,
        supplierWaitValid, hv1, hv2, Tr.bind_eq, Tr.bind, Tr.pure_eq, act, Tr.fail,
        Tr.catchWith]
  · intro h1 h2
    rcases m1 <;> rcases e1 <;> rcases m2 <;> rcases e2 <;>
      simp [addSupplier, supplierOpenAndType, supplierWaitMenu, supplierClickBestMatch,
        supplierWaitValid, h1, h2, Tr.bind_eq, Tr.bind, Tr.pure_eq, act, Tr.fail,
        Tr.catchWith]

/-- Witness for claim C9 at a concrete run: with an identifier that stays empty
through the first window and all-zero through the second, the resolver types
at most twice and raises. -/
theorem add_supplier_retry_bound_and_validity_check :
    ((addSupplier ⟨true, true, true, true, "", "00000000-0000-0000-0000-000000000000"⟩ "Acme").trace.countP PAct.isTyping ≤ 2)
    ∧ (∃ e, (addSupplier ⟨true, true, true, true, "", "00000000-0000-0000-0000-000000000000"⟩ "Acme").result
        = Except.error e) :=
  ⟨(add_supplier_retry_bound_and_validity ⟨true, true, true, true, "", "00000000-0000-0000-0000-000000000000"⟩ "Acme").1,
   (add_supplier_retry_bound_and_validity ⟨true, true, true, true, "", "00000000-0000-0000-0000-000000000000"⟩ "Acme").2.2
     (by decide) (by decide)⟩

/-!
Confirmation-identifier contract (claims C6 and C10).
-/

theorem Tr.result_bind_ok {x : Tr A α} {f : α → Tr A β} {v : α}
    (hx : x.result = Except.ok v) : (Tr.bind x f).result = (f v).result := by
  unfold Tr.bind; rw [hx]

theorem Tr.result_bind_error {x : Tr A α} {f : α → Tr A β} {e : PErr}
    (hx : x.result = Except.error e) : (Tr.bind x f).result = Except.error e := by
  unfold Tr.bind; rw [hx]

theorem Tr.result_catchWith_error {x : Tr A α} {h : PErr → Tr A α} {e : PErr}
    (hx : x.result = Except.error e) : (Tr.catchWith x h).result = (h e).result := by
  unfold Tr.catchWith; rw [hx]

theorem startRun_result (cfg : ClientConfig) (pe : PageEnv) :
    (startRun cfg pe).result = Except.ok () := by
  unfold startRun; split <;> rfl

theorem goToCommissionsHub_result (pe : PageEnv) :
    (goToCommissionsHub pe).result = Except.ok () := by
  unfold goToCommissionsHub; split <;> rfl

theorem openExistingForm_result (fid : String) :
    (openExistingForm fid).result = Except.ok () := rfl

/-- The final-submit helper only returns the form id it operated on. -/
theorem finalSubmitCommissionForm_ok {fe : FinalEnv} {fid cid : String}
    (h : (finalSubmitCommissionForm fe fid).result = Except.ok cid) : cid = fid := by
  unfold finalSubmitCommissionForm at h
  rcases Tr.result_ok_bind h with ⟨_, _, h⟩
  rcases Tr.result_ok_bind h with ⟨_, _, h⟩
  rcases Tr.result_ok_bind h with ⟨_, _, h⟩
  rcases Tr.result_ok_bind h with ⟨_, _, h⟩
  rcases hb : fe.successBanner with _ | _
  · rw [hb] at h
    simp only [if_false, Bool.false_eq_true] at h
    rcases ht : fe.hubTableSeen with _ | _
    · rw [ht] at h
      simp only [Bool.false_eq_true, if_false] at h
      exact absurd h (by simp [Tr.fail])
    · rw [ht] at h
      simp only [if_true] at h
      rcases hr : fe.rowAppears with _ | _
      · rw [hr] at h
        simp only [Bool.false_eq_true, if_false] at h
        exact absurd h (by simp [Tr.fail])
      · rw [hr] at h
        simp only [if_true] at h
        rcases Tr.result_ok_bind h with ⟨_, _, h⟩
        have h2 : Except.ok fid = Except.ok cid := h
        exact (Except.ok.inj h2).symm
  · rw [hb] at h
    simp only [if_true] at h
    have h2 : Except.ok fid = Except.ok cid := h
    exact (Except.ok.inj h2).symm

/-- Every successful safe submit reports the resolved form id with the
no-submit marker. -/
theorem submitSale_ok_confirmation {cfg : ClientConfig} {p : Payload} {pe : PageEnv}
    {r : SubmissionResult} (h : (submitSale cfg p pe).result = Except.ok r) :
    r.confirmation_id = resolveFormId cfg p ++ "-NO-SUBMIT" := by
  unfold submitSale at h
  rcases Tr.result_ok_bind h with ⟨_, _, h⟩
  have h := Tr.result_ok_catchTimeout
    (by intro m r0; simp [debugDump, act, Tr.bind_eq, Tr.bind, Tr.fail]) h
  rcases Tr.result_ok_bind h with ⟨_, _, h⟩
  rcases Tr.result_ok_bind h with ⟨_, _, h⟩
  rcases Tr.result_ok_bind h with ⟨_, _, h⟩
  rcases Tr.result_ok_bind h with ⟨_, _, h⟩
  rcases Tr.result_ok_bind h with ⟨_, _, h⟩
  have h2 : Except.ok (⟨resolveFormId cfg p ++ "-NO-SUBMIT"⟩ : SubmissionResult) = Except.ok r := h
  cases Except.ok.inj h2
  rfl

/-- Every successful final submit reports the given form id unchanged. -/
theorem finalSubmitExistingForm_ok {cfg : ClientConfig} {fid : String} {pe : PageEnv}
    {r : SubmissionResult} (h : (finalSubmitExistingForm cfg fid pe).result = Except.ok r) :
    r.confirmation_id = fid := by
  unfold finalSubmitExistingForm at h
  rcases Tr.result_ok_bind h with ⟨_, _, h⟩
  have h := Tr.result_ok_catchWith
    (by intro e r0; cases e <;> simp [debugDump, act, Tr.bind_eq, Tr.bind, Tr.fail]) h
  rcases Tr.result_ok_bind h with ⟨_, _, h⟩
  rcases Tr.result_ok_bind h with ⟨_, _, h⟩
  rcases Tr.result_ok_bind h with ⟨cid, hcid, h⟩
  rcases Tr.result_ok_bind h with ⟨_, _, h⟩
  have h2 : Except.ok (⟨cid⟩ : SubmissionResult) = Except.ok r := h
  cases Except.ok.inj h2
  simpa using finalSubmitCommissionForm_ok hcid

/-- With neither verification signal (no banner and no hub row), the final
submit raises instead of returning. -/
theorem finalSubmit_noSignal_error (cfg : ClientConfig) (fid : String) (pe : PageEnv)
    (hb : pe.finalEnv.successBanner = false)
    (hr : pe.finalEnv.hubTableSeen = false ∨ pe.finalEnv.rowAppears = false) :
    ∃ e, (finalSubmitExistingForm cfg fid pe).result = Except.error e := by
  have hinner : ∃ e0, (finalSubmitCommissionForm pe.finalEnv fid).result = Except.error e0 := by
    rcases hr with hr | hr <;>
      simp [finalSubmitCommissionForm, hb, hr, Tr.bind_eq, Tr.bind, Tr.pure_eq, act, Tr.fail] <;>
      rcases ht : pe.finalEnv.hubTableSeen <;> simp [ht]
  obtain ⟨e0, he0⟩ := hinner
  have hbody : (do goToCommissionsHub pe
                   openExistingForm fid
                   let cid ← finalSubmitCommissionForm pe.finalEnv fid
                   debugDump ("final_submit_ok_" ++ fid)
                   (pure ⟨cid⟩ : Tr PAct SubmissionResult)).result = Except.error e0 := by
    rw [Tr.bind_eq, Tr.result_bind_ok (goToCommissionsHub_result pe), Tr.bind_eq,
      Tr.result_bind_ok (openExistingForm_result fid), Tr.bind_eq, Tr.result_bind_error he0]
  unfold finalSubmitExistingForm
  rw [Tr.bind_eq, Tr.result_bind_ok (startRun_result cfg pe), Tr.result_catchWith_error hbody]
  cases e0 <;> simp [debugDump, act, Tr.bind_eq, Tr.bind, Tr.fail]

/-- Claim C6.  Successful safe submits report the operated record identifier
suffixed with "-NO-SUBMIT"; successful final submits report the given record
identifier unchanged; and the final submit raises instead of returning when no
verification signal (success banner, or hub table with the record row) is
observed. -/
theorem confirmation_id_contract :
    (∀ (cfg : ClientConfig) (p : Payload) (pe : PageEnv) (r : SubmissionResult),
       (submitSale cfg p pe).result = Except.ok r →
       r.confirmation_id = resolveFormId cfg p ++ "-NO-SUBMIT")
  ∧ (∀ (cfg : ClientConfig) (fid : String) (pe : PageEnv) (r : SubmissionResult),
       (finalSubmitExistingForm cfg fid pe).result = Except.ok r → r.confirmation_id = fid)
  ∧ (∀ (cfg : ClientConfig) (fid : String) (pe : PageEnv),
       pe.finalEnv.successBanner = false →
       (pe.finalEnv.hubTableSeen = false ∨ pe.finalEnv.rowAppears = false) →
       ∃ e, (finalSubmitExistingForm cfg fid pe).result = Except.error e) :=
  ⟨fun _ _ _ _ h => submitSale_ok_confirmation h,
   fun _ _ _ _ h => finalSubmitExistingForm_ok h,
   fun cfg fid pe hb hr => finalSubmit_noSignal_error cfg fid pe hb hr⟩

/-- Page environment with no final-submit verification signal at all. -/
def noSignalEnv : PageEnv :=
  ⟨true, true, fun _ => ⟨"date", "", ""⟩, fun _ => ⟨true, true, true, true, "ID-1", "ID-1"⟩,
   ⟨"select", true, "US Dollar"⟩, fun _ => ⟨true, false, true, true, false, false⟩, ⟨false, false, false⟩⟩

/-- Witness for claim C6 at concrete runs: the safe path reports the marker
suffix, the final path reports the record id, and without signals the final
path errors. -/
theorem confirmation_id_contract_check :
    ((⟨"EVO2026153349-NO-SUBMIT"⟩ : SubmissionResult).confirmation_id
       = resolveFormId ⟨"https://portal", "EVO2026153349"⟩ ⟨none, none, []⟩ ++ "-NO-SUBMIT")
    ∧ ((⟨"F1"⟩ : SubmissionResult).confirmation_id = "F1")
    ∧ (∃ e, (finalSubmitExistingForm ⟨"https://portal", "EVO2026153349"⟩ "F1" noSignalEnv).result
        = Except.error e) :=
  ⟨confirmation_id_contract.1 ⟨"https://portal", "EVO2026153349"⟩ ⟨none, none, []⟩ startEnv
     ⟨"EVO2026153349-NO-SUBMIT"⟩ rfl,
   confirmation_id_contract.2.1 ⟨"https://portal", "EVO2026153349"⟩ "F1" startEnv ⟨"F1"⟩ rfl,
   confirmation_id_contract.2.2 ⟨"https://portal", "EVO2026153349"⟩ "F1" noSignalEnv rfl (Or.inl rfl)⟩

/-- Claim C10.  When the payload key `existing_form_id` is absent, maps to
`None`, or maps to the empty string, the safe submit operates on the
configured `default_form_id` (constructor default "EVO2026153349") and a
successful run reports that default with the "-NO-SUBMIT" suffix: the `or`
fallback fires on every falsy value, not only on a missing key. -/
theorem submit_sale_falsy_form_id_fallback (cfg : ClientConfig) (t : Option Traveler)
    (cs : List Component) (pe : PageEnv) (u : String) :
    resolveFormId cfg ⟨none, t, cs⟩ = cfg.default_form_id
  ∧ resolveFormId cfg ⟨some "", t, cs⟩ = cfg.default_form_id
  ∧ (∀ r, (submitSale cfg ⟨none, t, cs⟩ pe).result = Except.ok r →
       r.confirmation_id = cfg.default_form_id ++ "-NO-SUBMIT")
  ∧ (∀ r, (submitSale cfg ⟨some "", t, cs⟩ pe).result = Except.ok r →
       r.confirmation_id = cfg.default_form_id ++ "-NO-SUBMIT")
  ∧ ({ base_url := u } : ClientConfig).default_form_id = "EVO2026153349" := by
  refine ⟨rfl, rfl, ?_, ?_, rfl⟩
  · intro r h
    rw [submitSale_ok_confirmation h]
    simp [resolveFormId]
  · intro r h
    rw [submitSale_ok_confirmation h]
    simp [resolveFormId]

/-- Client configuration exercising the constructor default form id. -/
def cfgDefault : ClientConfig := { base_url := "https://portal" }

/-- Witness for claim C10 at concrete runs: with the key absent and with the
empty string, a successful safe submit reports the default id with the
suffix. -/
theorem submit_sale_falsy_form_id_fallback_check :
    ((submitSale cfgDefault ⟨none, none, []⟩ startEnv).result
       = Except.ok ⟨"EVO2026153349-NO-SUBMIT"⟩)
    ∧ (⟨"EVO2026153349-NO-SUBMIT"⟩ : SubmissionResult).confirmation_id
       = cfgDefault.default_form_id ++ "-NO-SUBMIT"
    ∧ ((submitSale cfgDefault ⟨some "", none, []⟩ startEnv).result
       = Except.ok ⟨"EVO2026153349-NO-SUBMIT"⟩)
    ∧ (⟨"EVO2026153349-NO-SUBMIT"⟩ : SubmissionResult).confirmation_id
       = cfgDefault.default_form_id ++ "-NO-SUBMIT" :=
  ⟨rfl,
   (submit_sale_falsy_form_id_fallback cfgDefault none [] startEnv "x").2.2.1
     ⟨"EVO2026153349-NO-SUBMIT"⟩ rfl,
   rfl,
   (submit_sale_falsy_form_id_fallback cfgDefault none [] startEnv "x").2.2.2.1
     ⟨"EVO2026153349-NO-SUBMIT"⟩ rfl⟩

/-!
CLI safety-gate theorems (claims C2, C3, C4).
-/

/-- Valid settings leave the url check of `main` satisfied. -/
theorem url_not_falsy {s : CliSettings} (h : (missingSettings s).isEmpty = true) :
    strFalsy s.portal_url = false := by
  rcases hf : strFalsy s.portal_url
  · rfl
  · exfalso
    simp [missingSettings, hf] at h

/-- Claim C2.  Every invocation of `portal-final-submit` without the
acknowledgment flag (with the settings precondition met and login
succeeding) raises the refusal error, makes zero `final_submit_existing_form`
calls for any form id, and still calls `close` exactly once. -/
theorem cli_final_submit_gate_refusal (s : CliSettings) (fid : String) (pb : CliPortal)
    (hs : (missingSettings s).isEmpty = true)
    (hl : pb.loginResult = Except.ok ()) :
    (mainRun s (CliCmd.portalFinalSubmit fid false) pb).result
      = Except.error (PErr.runtimeErr "Refusing to final-submit without --i-understand-this-will-submit")
  ∧ (∀ g, PortalCall.finalSubmitCall g ∉ (mainRun s (CliCmd.portalFinalSubmit fid false) pb).trace)
  ∧ (mainRun s (CliCmd.portalFinalSubmit fid false) pb).trace.count PortalCall.closeCall = 1 := by
  have hu := url_not_falsy hs
  refine ⟨?_, ?_, ?_⟩ <;>
    simp [mainRun, hs, hu, mainBody, callLogin, hl, Tr.tryFinally, callClose,
      Tr.bind_eq, Tr.bind, Tr.fail, Tr.pure_eq, List.count]

/-- Claim C3.  Every invocation of `portal-final-submit` with the
acknowledgment flag (settings met, login succeeding, and the portal client
returning the record identifier as the verified client does) calls
`final_submit_existing_form` exactly once with that identifier, never calls
the safe `submit_sale`, and reports a confirmation id equal to the record
identifier. -/
theorem cli_final_submit_gate_passthrough (s : CliSettings) (fid : String) (pb : CliPortal)
    (hs : (missingSettings s).isEmpty = true)
    (hl : pb.loginResult = Except.ok ())
    (hf : pb.finalSubmitResult fid = Except.ok ⟨fid⟩) :
    (mainRun s (CliCmd.portalFinalSubmit fid true) pb).trace
      = [PortalCall.loginCall, PortalCall.finalSubmitCall fid, PortalCall.closeCall]
  ∧ (mainRun s (CliCmd.portalFinalSubmit fid true) pb).trace.count (PortalCall.finalSubmitCall fid) = 1
  ∧ PortalCall.submitSaleCall ∉ (mainRun s (CliCmd.portalFinalSubmit fid true) pb).trace
  ∧ (mainRun s (CliCmd.portalFinalSubmit fid true) pb).result = Except.ok (some fid) := by
  have hu := url_not_falsy hs
  refine ⟨?_, ?_, ?_, ?_⟩ <;>
    simp [mainRun, hs, hu, mainBody, callLogin, callFinalSubmit, hl, hf, Tr.tryFinally,
      callClose, Tr.bind_eq, Tr.bind, Tr.fail, Tr.pure_eq, List.count]

/-- Settings instance with all three portal variables present. -/
def c4Settings : CliSettings := ⟨some "https://portal", some "agent", some "pw"⟩

/-- Portal behavior where every call succeeds, with the final submit returning
the given form id as the verified client does. -/
def c4Portal : CliPortal := ⟨Except.ok (), Except.ok ⟨"X-NO-SUBMIT"⟩, fun g => Except.ok ⟨g⟩, Except.ok ()⟩

/-- Claim C4 (counterexample).  A concrete unacknowledged `portal-final-submit`
run raises the refusal, yet its portal-call trace contains the login call
(issued before the gate check): a browser interaction does occur before the
refusal, contradicting the claim that none happens. -/
theorem cli_gate_check_after_login_counterexample :
    (mainRun c4Settings (CliCmd.portalFinalSubmit "EVO2026153349" false) c4Portal).trace
      = [PortalCall.loginCall, PortalCall.closeCall]
    ∧ (mainRun c4Settings (CliCmd.portalFinalSubmit "EVO2026153349" false) c4Portal).result
      = Except.error (PErr.runtimeErr "Refusing to final-submit without --i-understand-this-will-submit")
    ∧ PortalCall.loginCall ∈ (mainRun c4Settings (CliCmd.portalFinalSubmit "EVO2026153349" false) c4Portal).trace :=
  ⟨rfl, rfl, by decide⟩

/-- Claim C4 (amended).  Every unacknowledged `portal-final-submit` invocation
(settings met, login succeeding) raises the refusal before any final-submit
portal call — zero such calls occur — but after the login browser interaction,
which `main` performs before dispatching to the gate check; the full portal
trace is exactly login followed by close. -/
theorem cli_gate_refusal_after_login (s : CliSettings) (fid : String) (pb : CliPortal)
    (hs : (missingSettings s).isEmpty = true)
    (hl : pb.loginResult = Except.ok ()) :
    (mainRun s (CliCmd.portalFinalSubmit fid false) pb).result
      = Except.error (PErr.runtimeErr "Refusing to final-submit without --i-understand-this-will-submit")
  ∧ (∀ g, PortalCall.finalSubmitCall g ∉ (mainRun s (CliCmd.portalFinalSubmit fid false) pb).trace)
  ∧ (mainRun s (CliCmd.portalFinalSubmit fid false) pb).trace
      = [PortalCall.loginCall, PortalCall.closeCall] := by
  have hu := url_not_falsy hs
  refine ⟨?_, ?_, ?_⟩ <;>
    simp [mainRun, hs, hu, mainBody, callLogin, hl, Tr.tryFinally, callClose,
      Tr.bind_eq, Tr.bind, Tr.fail, Tr.pure_eq]

/-- Witness for claim C2 at a concrete unacknowledged invocation. -/
theorem cli_final_submit_gate_refusal_check :
    ((mainRun c4Settings (CliCmd.portalFinalSubmit "F2" false) c4Portal).result
      = Except.error (PErr.runtimeErr "Refusing to final-submit without --i-understand-this-will-submit"))
    ∧ (PortalCall.finalSubmitCall "F2" ∉ (mainRun c4Settings (CliCmd.portalFinalSubmit "F2" false) c4Portal).trace)
    ∧ (mainRun c4Settings (CliCmd.portalFinalSubmit "F2" false) c4Portal).trace.count PortalCall.closeCall = 1 :=
  ⟨(cli_final_submit_gate_refusal c4Settings "F2" c4Portal rfl rfl).1,
   (cli_final_submit_gate_refusal c4Settings "F2" c4Portal rfl rfl).2.1 "F2",
   (cli_final_submit_gate_refusal c4Settings "F2" c4Portal rfl rfl).2.2⟩

/-- Witness for claim C3 at the concrete record of the spec scenario. -/
theorem cli_final_submit_gate_passthrough_check :
    ((mainRun c4Settings (CliCmd.portalFinalSubmit "EVO2026153349" true) c4Portal).trace
      = [PortalCall.loginCall, PortalCall.finalSubmitCall "EVO2026153349", PortalCall.closeCall])
    ∧ (mainRun c4Settings (CliCmd.portalFinalSubmit "EVO2026153349" true) c4Portal).result
      = Except.ok (some "EVO2026153349") :=
  ⟨(cli_final_submit_gate_passthrough c4Settings "EVO2026153349" c4Portal rfl rfl rfl).1,
   (cli_final_submit_gate_passthrough c4Settings "EVO2026153349" c4Portal rfl rfl rfl).2.2.2⟩

/-- Witness for the amended claim C4 at a concrete unacknowledged invocation. -/
theorem cli_gate_refusal_after_login_check :
    ((mainRun c4Settings (CliCmd.portalFinalSubmit "F3" false) c4Portal).result
      = Except.error (PErr.runtimeErr "Refusing to final-submit without --i-understand-this-will-submit"))
    ∧ (mainRun c4Settings (CliCmd.portalFinalSubmit "F3" false) c4Portal).trace
      = [PortalCall.loginCall, PortalCall.closeCall] :=
  ⟨(cli_gate_refusal_after_login c4Settings "F3" c4Portal rfl rfl).1,
   (cli_gate_refusal_after_login c4Settings "F3" c4Portal rfl rfl).2.2⟩
